import Mathlib

/-!
Verification development for the company-database Apps Script pipeline
(src/company-db/parse-company.js, save-to-db.js, main.js, and the database
write utility in src/unnamed/part_001).

Shallow embedding conventions:
  - JSON values that can appear in a sheet cell are modelled by Cell.
  - Nullable JSON fields are modelled by Option.
  - The external text-classification service is modelled as a structure of
    deterministic per-stage functions of the document text; each stage owns a
    fixed prompt template and a fixed closed JSON schema, so the stage
    identity plus the document text determines the classifier call.
  - A thrown JS exception is modelled by the error branch of Except; mutation
    of an external sheet is modelled by returning the updated sheet value.
  - Numbers are modelled by the rationals; UUID generation and the clock are
    modelled as explicit string parameters of the pipeline entry point.
This file embeds the second revision of parse-company.js (the revision that
feeds the whole document text to every stage); the empty-text short-circuit
and the assembly logic are identical in both revisions.
-/

/-- A value stored in one spreadsheet cell (or appearing as a JSON field
value): a string, a number, or null. -/
inductive Cell where
  | str : String → Cell
  | num : ℚ → Cell
  | null : Cell
deriving DecidableEq, Repr

/-- Output schema of parseSimpleFieldsBatch (parse-company.js lines 783-822):
every declared field is present and nullable, no additional fields. -/
structure SimpleFields where
  company_name : Option String
  url : Option String
  arr_run_rate : Option ℚ
  carr : Option ℚ
  revenue_2024 : Option ℚ
  revenue_2023 : Option ℚ
  revenue_2022 : Option ℚ
  cash : Option ℚ
  runway : Option ℚ
  raising : Option ℚ
  raised : Option ℚ
  cac : Option ℚ
  payback_period : Option ℚ
  ltv_to_cac : Option ℚ
  gross_margin : Option ℚ
  saas_recurring_percent : Option ℚ
  nrr : Option ℚ
  team_size : Option ℤ
  year_founded : Option ℤ
  location : Option String
  description : Option String
  competition : Option String
  revenue_notes : Option String
  funding_notes : Option String
  good : Option String
  challenges : Option String
  needs_action : Option String
deriving DecidableEq, Repr

/-- Output schema of analyzeACVComplexity (parse-company.js lines 872-880). -/
structure ACVResult where
  acv : Option ℚ
  acv_2 : Option ℚ
deriving DecidableEq, Repr

/-- Output schema of analyzeCustomerComplexity (parse-company.js lines 925-933). -/
structure CustomerResult where
  customer_count : Option ℤ
  customer_count_2 : Option ℤ
deriving DecidableEq, Repr

/-- Output schema of convertChurnToAnnual (parse-company.js lines 972-979). -/
structure ChurnResult where
  logo_churn_annual : Option ℚ
deriving DecidableEq, Repr

/-- Output schema of normalizeMonthlyBurn (parse-company.js lines 1026-1033). -/
structure BurnResult where
  monthly_burn : Option ℚ
deriving DecidableEq, Repr

/-- Output schema of extractLastRoundValuation (parse-company.js lines 1089-1096). -/
structure ValuationResult where
  last_round_valuation : Option ℚ
deriving DecidableEq, Repr

/-- The assembled company record, with the fields of the object literal built
by assembleCompleteRecord (parse-company.js lines 1118-1169), in source
order. -/
structure CompanyRecord where
  id : String
  company_name : Option String
  doc_url : String
  date_created : String
  arr_run_rate : Option ℚ
  carr : Option ℚ
  revenue_2024 : Option ℚ
  revenue_2023 : Option ℚ
  revenue_2022 : Option ℚ
  monthly_burn : Option ℚ
  cash : Option ℚ
  runway : Option ℚ
  raising : Option ℚ
  raised : Option ℚ
  last_round_valuation : Option ℚ
  acv : Option ℚ
  acv_2 : Option ℚ
  customer_count : Option ℤ
  customer_count_2 : Option ℤ
  logo_churn_annual : Option ℚ
  cac : Option ℚ
  payback_period : Option ℚ
  ltv_to_cac : Option ℚ
  gross_margin : Option ℚ
  saas_recurring_percent : Option ℚ
  nrr : Option ℚ
  team_size : Option ℤ
  year_founded : Option ℤ
  location : Option String
  description : Option String
  url : Option String
  competition : Option String
  revenue_notes : Option String
  funding_notes : Option String
  good : Option String
  challenges : Option String
  needs_action : Option String
deriving DecidableEq, Repr

/-- The external text-classification service: one deterministic function per
stage, from the document text to either a schema-conforming payload or a
failure.  The per-stage prompt template and closed JSON schema are fixed in
the source, so the stage identity together with the document text determines
the call. -/
structure Classifier where
  simpleFields : String → Except String SimpleFields
  acvAnalysis : String → Except String ACVResult
  customerAnalysis : String → Except String CustomerResult
  churnConversion : String → Except String ChurnResult
  burnNormalization : String → Except String BurnResult
  valuationExtraction : String → Except String ValuationResult

/-- A transport-level response from the classification endpoint: an HTTP
status code and, when the body parses and has the expected message structure,
the typed payload (none models an unparsable body or a body with no message
content, both of which callOpenAIStructured rejects). -/
structure APIResponse (α : Type) where
  code : ℕ
  payload : Option α
deriving DecidableEq, Repr

/-- callOpenAIStructured (parse-company.js lines 1180-1225): throws on a
non-200 status code, throws when the response body cannot be parsed into the
expected message structure, otherwise returns the parsed payload. -/
def callOpenAIStructured {α : Type} (resp : APIResponse α) : Except String α :=
  if resp.code ≠ 200 then
    Except.error ("OpenAI API error: " ++ toString resp.code)
  else
    match resp.payload with
    | none => Except.error "Invalid API response structure"
    | some v => Except.ok v

/-- The transport responses the classification endpoint would give to each of
the six stage calls for a given document text. -/
structure TransportResponses where
  simpleFields : String → APIResponse SimpleFields
  acvAnalysis : String → APIResponse ACVResult
  customerAnalysis : String → APIResponse CustomerResult
  churnConversion : String → APIResponse ChurnResult
  burnNormalization : String → APIResponse BurnResult
  valuationExtraction : String → APIResponse ValuationResult

/-- The classifier obtained by sending each stage call through
callOpenAIStructured. -/
def Classifier.ofTransport (t : TransportResponses) : Classifier where
  simpleFields := fun s => callOpenAIStructured (t.simpleFields s)
  acvAnalysis := fun s => callOpenAIStructured (t.acvAnalysis s)
  customerAnalysis := fun s => callOpenAIStructured (t.customerAnalysis s)
  churnConversion := fun s => callOpenAIStructured (t.churnConversion s)
  burnNormalization := fun s => callOpenAIStructured (t.burnNormalization s)
  valuationExtraction := fun s => callOpenAIStructured (t.valuationExtraction s)

/-- A transport response fails when its status code is not 200 or its body
does not yield a schema-conforming payload. -/
def responseFails {α : Type} (resp : APIResponse α) : Prop :=
  resp.code ≠ 200 ∨ resp.payload = none

/-- The emptiness test used by every individually-analyzed stage, written in
JS as a falsy check followed by trim() === the empty string: true exactly
when the text consists of whitespace characters only (trimming yields the
empty string on precisely those texts). -/
def isBlankText (s : String) : Bool :=
  s.data.all Char.isWhitespace

/-- parseSimpleFieldsBatch (parse-company.js lines 733-825): builds the batch
prompt and closed schema and performs one classifier call; no empty-text
short-circuit. -/
def parseSimpleFieldsBatch (classify : String → Except String SimpleFields)
    (docText : String) : Except String SimpleFields :=
  classify docText

/-- analyzeACVComplexity (parse-company.js lines 834-883, identically lines
247-299 of the first revision): when the source text is empty or
all-whitespace it returns both fields null without any classifier call;
otherwise it performs one classifier call. -/
def analyzeACVComplexity (classify : String → Except String ACVResult)
    (docText : String) : Except String ACVResult :=
  if isBlankText docText then Except.ok { acv := none, acv_2 := none }
  else classify docText

/-- analyzeCustomerComplexity (parse-company.js lines 890-936, identically
lines 308-358 of the first revision): empty-text short-circuit to a pair of
nulls, otherwise one classifier call. -/
def analyzeCustomerComplexity (classify : String → Except String CustomerResult)
    (docText : String) : Except String CustomerResult :=
  if isBlankText docText then Except.ok { customer_count := none, customer_count_2 := none }
  else classify docText

/-- convertChurnToAnnual (parse-company.js lines 943-986, identically lines
365-404 of the first revision): empty-text short-circuit to null, otherwise
one classifier call whose single field is passed through. -/
def convertChurnToAnnual (classify : String → Except String ChurnResult)
    (docText : String) : Except String ChurnResult :=
  if isBlankText docText then Except.ok { logo_churn_annual := none }
  else
    match classify docText with
    | Except.error e => Except.error e
    | Except.ok result => Except.ok { logo_churn_annual := result.logo_churn_annual }

/-- normalizeMonthlyBurn (parse-company.js lines 995-1040): empty-text
short-circuit to null, otherwise one classifier call passed through. -/
def normalizeMonthlyBurn (classify : String → Except String BurnResult)
    (docText : String) : Except String BurnResult :=
  if isBlankText docText then Except.ok { monthly_burn := none }
  else
    match classify docText with
    | Except.error e => Except.error e
    | Except.ok result => Except.ok { monthly_burn := result.monthly_burn }

/-- extractLastRoundValuation (parse-company.js lines 1047-1103): empty-text
short-circuit to null, otherwise one classifier call passed through. -/
def extractLastRoundValuation (classify : String → Except String ValuationResult)
    (docText : String) : Except String ValuationResult :=
  if isBlankText docText then Except.ok { last_round_valuation := none }
  else
    match classify docText with
    | Except.error e => Except.error e
    | Except.ok result => Except.ok { last_round_valuation := result.last_round_valuation }

/-- Stages 2 to 4 of parseCompanyFromDoc (parse-company.js lines 696-709),
run in source order; the first stage failure aborts the run. -/
def runStages (c : Classifier) (docText : String) :
    Except String (SimpleFields × ACVResult × CustomerResult × ChurnResult × BurnResult × ValuationResult) :=
  match parseSimpleFieldsBatch c.simpleFields docText with
  | Except.error e => Except.error e
  | Except.ok simpleFields =>
    match analyzeACVComplexity c.acvAnalysis docText with
    | Except.error e => Except.error e
    | Except.ok acvData =>
      match analyzeCustomerComplexity c.customerAnalysis docText with
      | Except.error e => Except.error e
      | Except.ok customerData =>
        match convertChurnToAnnual c.churnConversion docText with
        | Except.error e => Except.error e
        | Except.ok churnData =>
          match normalizeMonthlyBurn c.burnNormalization docText with
          | Except.error e => Except.error e
          | Except.ok burnData =>
            match extractLastRoundValuation c.valuationExtraction docText with
            | Except.error e => Except.error e
            | Except.ok valuationData =>
              Except.ok (simpleFields, acvData, customerData, churnData, burnData, valuationData)

/-- assembleCompleteRecord (parse-company.js lines 1118-1169): a pure merge of
the stage outputs into the closed-schema record, plus the generated id and
the creation timestamp (modelled as the uuid and now parameters).  A stage
output argument that is structurally missing (undefined in JS, none here)
makes the property accesses throw, modelled as the error branch. -/
def assembleCompleteRecord (docId uuid now : String)
    (simpleFields : Option SimpleFields) (acvData : Option ACVResult)
    (customerData : Option CustomerResult) (churnData : Option ChurnResult)
    (burnData : Option BurnResult) (valuationData : Option ValuationResult) :
    Except String CompanyRecord :=
  match simpleFields, acvData, customerData, churnData, burnData, valuationData with
  | some sf, some a, some cu, some ch, some b, some v =>
    Except.ok
      { id := uuid
        company_name := sf.company_name
        doc_url := "https://docs.google.com/document/d/" ++ docId
        date_created := now
        arr_run_rate := sf.arr_run_rate
        carr := sf.carr
        revenue_2024 := sf.revenue_2024
        revenue_2023 := sf.revenue_2023
        revenue_2022 := sf.revenue_2022
        monthly_burn := b.monthly_burn
        cash := sf.cash
        runway := sf.runway
        raising := sf.raising
        raised := sf.raised
        last_round_valuation := v.last_round_valuation
        acv := a.acv
        acv_2 := a.acv_2
        customer_count := cu.customer_count
        customer_count_2 := cu.customer_count_2
        logo_churn_annual := ch.logo_churn_annual
        cac := sf.cac
        payback_period := sf.payback_period
        ltv_to_cac := sf.ltv_to_cac
        gross_margin := sf.gross_margin
        saas_recurring_percent := sf.saas_recurring_percent
        nrr := sf.nrr
        team_size := sf.team_size
        year_founded := sf.year_founded
        location := sf.location
        description := sf.description
        url := sf.url
        competition := sf.competition
        revenue_notes := sf.revenue_notes
        funding_notes := sf.funding_notes
        good := sf.good
        challenges := sf.challenges
        needs_action := sf.needs_action }
  | _, _, _, _, _, _ =>
    Except.error "TypeError: cannot read properties of undefined"

/-- parseCompanyFromDoc (parse-company.js lines 688-724): runs the stages in
order on the extracted document text, then assembles the record; any stage
failure is rethrown unchanged by the surrounding try block.  The generated
uuid and the assembly-time clock reading are explicit parameters. -/
def parseCompanyFromDoc (c : Classifier) (uuid now docId docText : String) :
    Except String CompanyRecord :=
  match runStages c docText with
  | Except.error e => Except.error e
  | Except.ok (simpleFields, acvData, customerData, churnData, burnData, valuationData) =>
    assembleCompleteRecord docId uuid now (some simpleFields) (some acvData)
      (some customerData) (some churnData) (some burnData) (some valuationData)

/-- The period in which a churn figure is stated in the source text. -/
inductive ChurnPeriod where
  | monthly : ChurnPeriod
  | annual : ChurnPeriod
deriving DecidableEq, Repr

/-- Modelled from the spec: the numeric churn conversion itself is performed
by the external classifier, steered by the conversion rules in the prompt of
convertChurnToAnnual (parse-company.js lines 948-970, identically lines
370-388 of the first revision), which the spec restates: a rate already
stated as annual passes through unchanged, and a monthly rate m becomes
1 - (1 - m)^12 (compounding, never m times 12). -/
def convertChurnRate : ChurnPeriod → ℚ → ℚ
  | ChurnPeriod.annual, r => r
  | ChurnPeriod.monthly, m => 1 - (1 - m) ^ 12

/-- Modelled from the spec: a churn classifier that follows the prompt of
convertChurnToAnnual exactly, parameterized by how it reads a churn figure
and its period out of the text (none models a text with no discoverable
churn figure, which the prompt maps to null). -/
def churnSpecClassifier (parseChurn : String → Option (ChurnPeriod × ℚ)) :
    String → Except String ChurnResult :=
  fun txt =>
    Except.ok { logo_churn_annual := (parseChurn txt).map (fun pr => convertChurnRate pr.1 pr.2) }

/-- JavaScript Array.prototype.indexOf as used on header and id-column
arrays, returning the first index holding the element, none when absent
(JS returns -1; every use site in save-to-db.js immediately tests for -1,
which the Option models). -/
def jsIndexOf {α : Type} [DecidableEq α] (a : α) : List α → Option ℕ
  | [] => none
  | b :: l => if b = a then some 0 else (jsIndexOf a l).map (· + 1)

/-- A sheet accessed by save-to-db.js: the header row (empty list when the
sheet is brand new and has no row at all) and the data rows below it.  The
frozen-row flag set by setHeaders is not modelled. -/
structure Sheet where
  headers : List String
  data : List (List Cell)
deriving DecidableEq, Repr

/-- getLastRow of the sheet: 0 for a brand-new empty sheet, otherwise the
header row plus the data rows. -/
def Sheet.getLastRow (s : Sheet) : ℕ :=
  if s.headers = [] then 0 else s.data.length + 1

/-- getHeaders (save-to-db.js lines 94-100): the empty list when the sheet
has no rows, otherwise the first row. -/
def Sheet.getHeaders (s : Sheet) : List String :=
  if s.getLastRow = 0 then [] else s.headers

/-- Object.keys of a CompanyRecord: the 37 field names in the order of the
object literal of assembleCompleteRecord (parse-company.js lines 1121-1168). -/
def companyRecordKeys : List String :=
  ["id", "company_name", "doc_url", "date_created",
   "arr_run_rate", "carr", "revenue_2024", "revenue_2023", "revenue_2022",
   "monthly_burn", "cash", "runway", "raising", "raised", "last_round_valuation",
   "acv", "acv_2", "customer_count", "customer_count_2", "logo_churn_annual",
   "cac", "payback_period", "ltv_to_cac", "gross_margin", "saas_recurring_percent", "nrr",
   "team_size", "year_founded", "location", "description", "url", "competition",
   "revenue_notes", "funding_notes", "good", "challenges", "needs_action"]

/-- A nullable number rendered as a cell value. -/
def cellOfNum : Option ℚ → Cell
  | some q => Cell.num q
  | none => Cell.null

/-- A nullable integer rendered as a cell value. -/
def cellOfInt : Option ℤ → Cell
  | some i => Cell.num (i : ℚ)
  | none => Cell.null

/-- A nullable string rendered as a cell value. -/
def cellOfStr : Option String → Cell
  | some s => Cell.str s
  | none => Cell.null

/-- Property lookup companyRecord[header]: some cell for each of the 37
declared field names (a null field reads as the null cell, not as
undefined), none for any other name (undefined in JS). -/
def CompanyRecord.getField (r : CompanyRecord) : String → Option Cell
  | "id" => some (Cell.str r.id)
  | "company_name" => some (cellOfStr r.company_name)
  | "doc_url" => some (Cell.str r.doc_url)
  | "date_created" => some (Cell.str r.date_created)
  | "arr_run_rate" => some (cellOfNum r.arr_run_rate)
  | "carr" => some (cellOfNum r.carr)
  | "revenue_2024" => some (cellOfNum r.revenue_2024)
  | "revenue_2023" => some (cellOfNum r.revenue_2023)
  | "revenue_2022" => some (cellOfNum r.revenue_2022)
  | "monthly_burn" => some (cellOfNum r.monthly_burn)
  | "cash" => some (cellOfNum r.cash)
  | "runway" => some (cellOfNum r.runway)
  | "raising" => some (cellOfNum r.raising)
  | "raised" => some (cellOfNum r.raised)
  | "last_round_valuation" => some (cellOfNum r.last_round_valuation)
  | "acv" => some (cellOfNum r.acv)
  | "acv_2" => some (cellOfNum r.acv_2)
  | "customer_count" => some (cellOfInt r.customer_count)
  | "customer_count_2" => some (cellOfInt r.customer_count_2)
  | "logo_churn_annual" => some (cellOfNum r.logo_churn_annual)
  | "cac" => some (cellOfNum r.cac)
  | "payback_period" => some (cellOfNum r.payback_period)
  | "ltv_to_cac" => some (cellOfNum r.ltv_to_cac)
  | "gross_margin" => some (cellOfNum r.gross_margin)
  | "saas_recurring_percent" => some (cellOfNum r.saas_recurring_percent)
  | "nrr" => some (cellOfNum r.nrr)
  | "team_size" => some (cellOfInt r.team_size)
  | "year_founded" => some (cellOfInt r.year_founded)
  | "location" => some (cellOfStr r.location)
  | "description" => some (cellOfStr r.description)
  | "url" => some (cellOfStr r.url)
  | "competition" => some (cellOfStr r.competition)
  | "revenue_notes" => some (cellOfStr r.revenue_notes)
  | "funding_notes" => some (cellOfStr r.funding_notes)
  | "good" => some (cellOfStr r.good)
  | "challenges" => some (cellOfStr r.challenges)
  | "needs_action" => some (cellOfStr r.needs_action)
  | _ => none

/-- The row written for a record (save-to-db.js line 37): one cell per
header, the record field when defined, otherwise null. -/
def mkNewRow (r : CompanyRecord) (headers : List String) : List Cell :=
  headers.map (fun h => (r.getField h).getD Cell.null)

/-- Writing a row at data index j (sheet row j+2): replaces the row when it
exists; writing at the row just past the data (reachable only through the
blank padding value read past the last row) lands on the first empty row,
which appends. -/
def writeRowAt (data : List (List Cell)) (j : ℕ) (row : List Cell) : List (List Cell) :=
  if j < data.length then data.set j row else data ++ [row]

/-- The sheet after a call to saveCompanyRecord together with the call
outcome (ok, or the thrown error). -/
structure SaveResult where
  sheet : Sheet
  outcome : Except String Unit
deriving Repr

/-- saveCompanyRecord (save-to-db.js lines 20-66).  When the sheet has no
header row, the code calls setHeaders (which writes the record keys as row 1)
and then assigns to the const binding named headers, which throws a
TypeError; the write outcome is the error but the header row has already been
written.  Otherwise it builds the row for the record; when an id column
exists it reads the id column below the header (getLastRow overshoots by one
row, appending one blank cell to the read values) and overwrites the first
row holding the record id in place, appending a new row when the id is
absent; without an id column it always appends. -/
def saveCompanyRecord (companyRecord : CompanyRecord) (sheet : Sheet) : SaveResult :=
  let headers := sheet.getHeaders
  if headers.length = 0 then
    { sheet := { headers := companyRecordKeys, data := sheet.data }
      outcome := Except.error "TypeError: Assignment to constant variable." }
  else
    let newRow := mkNewRow companyRecord headers
    match jsIndexOf "id" headers with
    | none =>
      { sheet := { sheet with data := sheet.data ++ [newRow] }, outcome := Except.ok () }
    | some k =>
      let idColumnValues :=
        sheet.data.map (fun row => row.getD k (Cell.str "")) ++ [Cell.str ""]
      match jsIndexOf (Cell.str companyRecord.id) idColumnValues with
      | some j =>
        { sheet := { sheet with data := writeRowAt sheet.data j newRow }
          outcome := Except.ok () }
      | none =>
        { sheet := { sheet with data := sheet.data ++ [newRow] }, outcome := Except.ok () }

/-- The number of data rows whose id-column cell holds the given id. -/
def countIdRows (s : Sheet) (k : ℕ) (idv : String) : ℕ :=
  s.data.countP (fun row => decide (row.getD k (Cell.str "") = Cell.str idv))

/-- validateCompanyRecord (src/unnamed/part_001 lines 291-356), restricted to
the checks that are not vacuous on a well-typed record (the typeof, isNaN and
Number.isInteger checks always pass in this typed embedding): required
fields non-blank, percentage-like fields within [0, 5], year_founded within
[1800, currentYear], and the two segment-consistency checks.  Returns the
errors array; the record is valid when it is empty. -/
def validateCompanyRecord (currentYear : ℤ) (r : CompanyRecord) : List String :=
  (if r.id.trim = "" then ["Missing required field: id"] else []) ++
  (match r.company_name with
   | none => ["Missing required field: company_name"]
   | some s => if s.trim = "" then ["Missing required field: company_name"] else []) ++
  (if r.doc_url.trim = "" then ["Missing required field: doc_url"] else []) ++
  (if r.date_created.trim = "" then ["Missing required field: date_created"] else []) ++
  (match r.gross_margin with
   | some v => if v < 0 ∨ 5 < v then ["Invalid percentage value for field gross_margin: must be between 0 and 5 (as decimal)"] else []
   | none => []) ++
  (match r.saas_recurring_percent with
   | some v => if v < 0 ∨ 5 < v then ["Invalid percentage value for field saas_recurring_percent: must be between 0 and 5 (as decimal)"] else []
   | none => []) ++
  (match r.logo_churn_annual with
   | some v => if v < 0 ∨ 5 < v then ["Invalid percentage value for field logo_churn_annual: must be between 0 and 5 (as decimal)"] else []
   | none => []) ++
  (match r.year_founded with
   | some y => if y < 1800 ∨ currentYear < y then ["Invalid year_founded: must be between 1800 and the current year"] else []
   | none => []) ++
  (match r.acv_2, r.acv with
   | some _, none => ["Invalid ACV data: acv_2 exists but primary acv is null"]
   | _, _ => []) ++
  (match r.customer_count_2, r.customer_count with
   | some _, none => ["Invalid customer count data: customer_count_2 exists but primary customer_count is null"]
   | _, _ => [])

/-- The accumulator of the batch driver processAllCompaniesInMasterFolder
(main.js lines 17-66): the sheet being written to and the two counters. -/
structure BatchState where
  sheet : Sheet
  processedCount : ℕ
  errorCount : ℕ
deriving DecidableEq, Repr

/-- The JS truthiness test on companyRecord.company_name used by the batch
driver (main.js line 46): null and the empty string are falsy, every other
string is truthy. -/
def jsTruthyName : Option String → Bool
  | none => false
  | some s => s ≠ ""

/-- The per-document body of the batch driver loop (main.js lines 41-57):
parse the document; on a parse error count one failure and continue; when
the record has no truthy company_name skip the document entirely (no save,
no counter); otherwise save, counting a success or, when the save throws, a
failure.  Sheet mutations made before a save throws persist. -/
def processDoc (parse : String → Except String CompanyRecord)
    (st : BatchState) (docId : String) : BatchState :=
  match parse docId with
  | Except.error _ => { st with errorCount := st.errorCount + 1 }
  | Except.ok companyRecord =>
    if jsTruthyName companyRecord.company_name then
      let res := saveCompanyRecord companyRecord st.sheet
      match res.outcome with
      | Except.ok _ =>
        { st with sheet := res.sheet, processedCount := st.processedCount + 1 }
      | Except.error _ =>
        { st with sheet := res.sheet, errorCount := st.errorCount + 1 }
    else st

/-- processAllCompaniesInMasterFolder (main.js lines 17-66) over the
flattened list of Google-Doc ids found in the master folder subfolders; the
parse parameter stands for parseCompanyFromDoc applied to the ambient
document store, classifier, uuid source and clock. -/
def processAllCompaniesInMasterFolder (parse : String → Except String CompanyRecord)
    (docs : List String) (st : BatchState) : BatchState :=
  docs.foldl (processDoc parse) st

/-- Adding one counted failure to a batch state, leaving the sheet and the
processed counter untouched. -/
def bumpError (st : BatchState) : BatchState :=
  { st with errorCount := st.errorCount + 1 }

/-- A simple-fields payload with every field null: a valid stage output under
the closed schema, since all declared keys are present. -/
def simpleFieldsNone : SimpleFields :=
  { company_name := none, url := none, arr_run_rate := none, carr := none,
    revenue_2024 := none, revenue_2023 := none, revenue_2022 := none,
    cash := none, runway := none, raising := none, raised := none,
    cac := none, payback_period := none, ltv_to_cac := none,
    gross_margin := none, saas_recurring_percent := none, nrr := none,
    team_size := none, year_founded := none, location := none,
    description := none, competition := none, revenue_notes := none,
    funding_notes := none, good := none, challenges := none, needs_action := none }

/-- A deterministic classifier that answers every stage call with a
schema-conforming all-null payload. -/
def nullClassifier : Classifier where
  simpleFields := fun _ => Except.ok simpleFieldsNone
  acvAnalysis := fun _ => Except.ok { acv := none, acv_2 := none }
  customerAnalysis := fun _ => Except.ok { customer_count := none, customer_count_2 := none }
  churnConversion := fun _ => Except.ok { logo_churn_annual := none }
  burnNormalization := fun _ => Except.ok { monthly_burn := none }
  valuationExtraction := fun _ => Except.ok { last_round_valuation := none }

/-- A deterministic classifier whose ACV answer is schema-conforming (both
declared keys present, types respected) but has a non-null secondary value
with a null primary value. -/
def acvSplitClassifier : Classifier :=
  { nullClassifier with acvAnalysis := fun _ => Except.ok { acv := none, acv_2 := some 800 } }

/-- The record assembled from all-null stage outputs for the given identity
inputs. -/
def recordOfNullStages (uuid now docId : String) : CompanyRecord :=
  { id := uuid, company_name := none,
    doc_url := "https://docs.google.com/document/d/" ++ docId, date_created := now,
    arr_run_rate := none, carr := none, revenue_2024 := none, revenue_2023 := none,
    revenue_2022 := none, monthly_burn := none, cash := none, runway := none,
    raising := none, raised := none, last_round_valuation := none,
    acv := none, acv_2 := none, customer_count := none, customer_count_2 := none,
    logo_churn_annual := none, cac := none, payback_period := none,
    ltv_to_cac := none, gross_margin := none, saas_recurring_percent := none,
    nrr := none, team_size := none, year_founded := none, location := none,
    description := none, url := none, competition := none, revenue_notes := none,
    funding_notes := none, good := none, challenges := none, needs_action := none }

/-- The record the pipeline assembles from acvSplitClassifier: its secondary
segment value is set while its primary one is null. -/
def recordWithOrphanSecondary : CompanyRecord :=
  { recordOfNullStages "uuid-1" "2025-01-01T00:00:00.000Z" "doc-1" with acv_2 := some 800 }

/-- A concrete complete record used to exercise the sheet writer. -/
def testRecord : CompanyRecord :=
  { recordOfNullStages "rec-1" "2025-01-01T00:00:00.000Z" "doc-1" with
      company_name := some "Acme Inc" }

/-- A brand-new sheet with no rows at all. -/
def emptySheet : Sheet :=
  { headers := [], data := [] }

/-- A sheet whose header row is the record key list and which holds one row
for testRecord, as produced by an earlier successful save. -/
def sheetWithTestRecordRow : Sheet :=
  { headers := companyRecordKeys, data := [mkNewRow testRecord companyRecordKeys] }

/-- A concrete batch-driver parse function: the document named bad fails to
parse, the document named anon parses to a record with a null company name,
every other document parses to testRecord. -/
def testParse : String → Except String CompanyRecord :=
  fun docId =>
    if docId = "bad" then Except.error "OpenAI API error: 500"
    else if docId = "anon" then Except.ok (recordOfNullStages "rec-2" "2025-01-02T00:00:00.000Z" "doc-2")
    else Except.ok testRecord

/-- A concrete driver start state over a sheet that already has the record
key header row. -/
def testBatchState : BatchState :=
  { sheet := { headers := companyRecordKeys, data := [] }, processedCount := 0, errorCount := 0 }

/-- Transport responses that answer the simple-fields batch call with a 500
status and every other call with a 200 status and an all-null payload. -/
def failingTransport : TransportResponses where
  simpleFields := fun _ => { code := 500, payload := none }
  acvAnalysis := fun _ => { code := 200, payload := some { acv := none, acv_2 := none } }
  customerAnalysis := fun _ => { code := 200, payload := some { customer_count := none, customer_count_2 := none } }
  churnConversion := fun _ => { code := 200, payload := some { logo_churn_annual := none } }
  burnNormalization := fun _ => { code := 200, payload := some { monthly_burn := none } }
  valuationExtraction := fun _ => { code := 200, payload := some { last_round_valuation := none } }

/-- A churn text reader asserting the text states a two percent monthly
rate, used to exercise the spec-following churn classifier. -/
def twoPercentMonthlyReader : String → Option (ChurnPeriod × ℚ) :=
  fun _ => some (ChurnPeriod.monthly, 2 / 100)

theorem jsIndexOf_eq_none_of_not_mem {α : Type} [DecidableEq α] {a : α} :
    ∀ {l : List α}, a ∉ l → jsIndexOf a l = none
  | [], _ => rfl
  | b :: l, h => by
    have hba : ¬ b = a := fun hb => h (hb ▸ List.mem_cons_self b l)
    have ht : a ∉ l := fun hm => h (List.mem_cons_of_mem b hm)
    simp [jsIndexOf, hba, jsIndexOf_eq_none_of_not_mem ht]

theorem jsIndexOf_append_right {α : Type} [DecidableEq α] {a : α} :
    ∀ {l₁ : List α} (l₂ : List α), a ∉ l₁ →
      jsIndexOf a (l₁ ++ l₂) = (jsIndexOf a l₂).map (· + l₁.length)
  | [], l₂, _ => by cases h2 : jsIndexOf a l₂ <;> simp [h2]
  | b :: l₁, l₂, h => by
    have ht : a ∉ l₁ := fun hm => h (List.mem_cons_of_mem b hm)
    have hrec := jsIndexOf_append_right l₂ ht
    have hba : ¬ b = a := fun hb => h (by simp [hb])
    cases h2 : jsIndexOf a l₂ with
    | none => simp [jsIndexOf, hba, hrec, h2]
    | some j => simp [jsIndexOf, hba, hrec, h2]; omega

theorem jsIndexOf_append_left {α : Type} [DecidableEq α] {a : α} {j : ℕ} :
    ∀ {l₁ : List α} (l₂ : List α), jsIndexOf a l₁ = some j → jsIndexOf a (l₁ ++ l₂) = some j
  | [], _, h => by simp [jsIndexOf] at h
  | b :: l₁, l₂, h => by
    by_cases hba : b = a
    · simp [jsIndexOf, hba] at h ⊢
      exact h
    · simp [jsIndexOf, hba] at h ⊢
      obtain ⟨j0, hj0, hj⟩ := h
      exact ⟨j0, jsIndexOf_append_left l₂ hj0, hj⟩

theorem jsIndexOf_some_spec {α : Type} [DecidableEq α] {a : α} :
    ∀ {l : List α} {j : ℕ}, jsIndexOf a l = some j → j < l.length ∧ ∀ d, l.getD j d = a := by
  intro l
  induction l with
  | nil => intro j h; simp [jsIndexOf] at h
  | cons b l ih =>
    intro j h
    by_cases hba : b = a
    · simp [jsIndexOf, hba] at h
      subst h
      exact ⟨by simp, fun d => hba⟩
    · simp [jsIndexOf, hba] at h
      obtain ⟨j0, hj0, hj⟩ := h
      obtain ⟨hlt, hget⟩ := ih hj0
      subst hj
      exact ⟨by simpa using Nat.succ_lt_succ hlt, fun d => hget d⟩

theorem jsIndexOf_of_mem {α : Type} [DecidableEq α] {a : α} :
    ∀ {l : List α}, a ∈ l → ∃ j, jsIndexOf a l = some j := by
  intro l
  induction l with
  | nil => intro h; simp at h
  | cons b l ih =>
    intro h
    by_cases hba : b = a
    · exact ⟨0, by simp [jsIndexOf, hba]⟩
    · have hm : a ∈ l := by
        rcases List.mem_cons.mp h with h1 | h1
        · exact absurd h1.symm hba
        · exact h1
      obtain ⟨j, hj⟩ := ih hm
      exact ⟨j + 1, by simp [jsIndexOf, hba, hj]⟩

theorem jsIndexOf_ne_nil {α : Type} [DecidableEq α] {a : α} {l : List α} {j : ℕ}
    (h : jsIndexOf a l = some j) : l ≠ [] := by
  intro hl
  subst hl
  simp [jsIndexOf] at h

theorem getD_map_of_lt {α β : Type} (f : α → β) :
    ∀ (l : List α) (k : ℕ) (d : β) (d2 : α), k < l.length → (l.map f).getD k d = f (l.getD k d2)
  | [], _, _, _, h => absurd h (by simp)
  | a :: l, 0, _, _, _ => rfl
  | a :: l, k + 1, d, d2, h => getD_map_of_lt f l k d d2 (by simpa using h)

theorem set_append_singleton_length {α : Type} :
    ∀ (l : List α) (x y : α), (l ++ [x]).set l.length y = l ++ [y]
  | [], _, _ => rfl
  | a :: l, x, y => by
    simp only [List.cons_append, List.length_cons, List.set, List.append_eq]
    rw [set_append_singleton_length l x y]

theorem countP_set_same {α : Type} (p : α → Bool) :
    ∀ (l : List α) (j : ℕ) (x d : α), j < l.length → p (l.getD j d) = p x →
      (l.set j x).countP p = l.countP p
  | [], j, _, _, h, _ => absurd h (by simp)
  | a :: l, 0, x, d, _, hp => by
    simp only [List.getD_cons_zero] at hp
    simp [List.set, List.countP_cons, hp]
  | a :: l, j + 1, x, d, h, hp => by
    simp only [List.getD_cons_succ] at hp
    simp only [List.set, List.countP_cons]
    rw [countP_set_same p l j x d (by simpa using h) hp]

/-- C3: for every invocation of a Segmentation Analyzer stage whose source
text is empty or all-whitespace, the stage returns both the primary and the
secondary output as null and succeeds; the result is the same for every
classifier function, including one that always fails, so the external
classifier is never invoked and no failure is raised. -/
theorem segmentation_empty_input_short_circuit
    (cACV : String → Except String ACVResult)
    (cCust : String → Except String CustomerResult)
    (docText : String) (h : isBlankText docText = true) :
    analyzeACVComplexity cACV docText = Except.ok { acv := none, acv_2 := none } ∧
    analyzeCustomerComplexity cCust docText =
      Except.ok { customer_count := none, customer_count_2 := none } := by
  constructor <;> simp [analyzeACVComplexity, analyzeCustomerComplexity, h]

/-- Witness for C3 at the whitespace text and an always-failing classifier. -/
theorem segmentation_empty_input_short_circuit_witness :
    (isBlankText "  " = true) ∧
    analyzeACVComplexity (fun _ => Except.error "transport down") "  " =
      Except.ok { acv := none, acv_2 := none } ∧
    analyzeCustomerComplexity (fun _ => Except.error "transport down") "  " =
      Except.ok { customer_count := none, customer_count_2 := none } :=
  ⟨by decide,
   (segmentation_empty_input_short_circuit (fun _ => Except.error "transport down")
      (fun _ => Except.error "transport down") "  " (by decide)).1,
   (segmentation_empty_input_short_circuit (fun _ => Except.error "transport down")
      (fun _ => Except.error "transport down") "  " (by decide)).2⟩

/-- C7: the Record Assembler succeeds exactly when every stage output object
is structurally present, whatever the field values inside them (so also when
every field is null), and on success the record carries the generated id and
the creation timestamp; a structurally missing stage output makes it fail. -/
theorem assembler_succeeds_iff_stage_outputs_present
    (docId uuid now : String) (sf : Option SimpleFields) (a : Option ACVResult)
    (cu : Option CustomerResult) (ch : Option ChurnResult) (b : Option BurnResult)
    (v : Option ValuationResult) :
    (∃ r, assembleCompleteRecord docId uuid now sf a cu ch b v = Except.ok r ∧
        r.id = uuid ∧ r.date_created = now) ↔
      (sf.isSome ∧ a.isSome ∧ cu.isSome ∧ ch.isSome ∧ b.isSome ∧ v.isSome) := by
  cases sf <;> cases a <;> cases cu <;> cases ch <;> cases b <;> cases v <;>
    simp [assembleCompleteRecord]

/-- C10: a document whose parse succeeds but yields a record with a null or
empty company_name is silently skipped by the batch driver: nothing is
saved and neither counter moves. -/
theorem batch_skips_record_without_company_name
    (parse : String → Except String CompanyRecord) (st : BatchState)
    (docId : String) (r : CompanyRecord)
    (hp : parse docId = Except.ok r)
    (hname : r.company_name = none ∨ r.company_name = some "") :
    processAllCompaniesInMasterFolder parse [docId] st = st := by
  have hstep : processDoc parse st docId = st := by
    rcases hname with h | h <;> simp [processDoc, hp, jsTruthyName, h]
  simp [processAllCompaniesInMasterFolder, hstep]

/-- Witness for C10 at a parse function returning a record with a null
company name. -/
theorem batch_skips_record_without_company_name_witness :
    testParse "anon" =
      Except.ok (recordOfNullStages "rec-2" "2025-01-02T00:00:00.000Z" "doc-2") ∧
    processAllCompaniesInMasterFolder testParse ["anon"] testBatchState = testBatchState :=
  ⟨rfl,
   batch_skips_record_without_company_name testParse testBatchState "anon"
     (recordOfNullStages "rec-2" "2025-01-02T00:00:00.000Z" "doc-2") rfl (Or.inl rfl)⟩

/-- C1: with a classifier that follows the conversion rules of the churn
prompt, convertChurnToAnnual returns the compounded annualization of the
churn figure found in the text: an annual rate passes through unchanged
(15 percent annual gives exactly 0.15) and a monthly rate m becomes
1 - (1 - m)^12, so 2 percent monthly gives a value within 0.001 of 0.2158
and never 0.24. -/
theorem convertChurnToAnnual_uses_compounding
    (parseChurn : String → Option (ChurnPeriod × ℚ)) (docText : String)
    (p : ChurnPeriod) (r : ℚ)
    (hne : isBlankText docText = false) (hp : parseChurn docText = some (p, r)) :
    convertChurnToAnnual (churnSpecClassifier parseChurn) docText =
        Except.ok { logo_churn_annual := some (convertChurnRate p r) } ∧
    convertChurnRate ChurnPeriod.annual r = r ∧
    convertChurnRate ChurnPeriod.annual (15 / 100) = 15 / 100 ∧
    convertChurnRate ChurnPeriod.monthly r = 1 - (1 - r) ^ 12 ∧
    |convertChurnRate ChurnPeriod.monthly (2 / 100) - 2158 / 10000| < 1 / 1000 ∧
    convertChurnRate ChurnPeriod.monthly (2 / 100) ≠ 24 / 100 := by
  refine ⟨?_, rfl, rfl, rfl, ?_, ?_⟩
  · simp [convertChurnToAnnual, churnSpecClassifier, hne, hp]
  · rw [abs_sub_lt_iff]
    constructor <;> norm_num [convertChurnRate]
  · norm_num [convertChurnRate]

/-- Witness for C1 at the text stating a 2 percent monthly churn rate. -/
theorem convertChurnToAnnual_uses_compounding_witness :
    (isBlankText "2% monthly" = false) ∧
    convertChurnToAnnual (churnSpecClassifier twoPercentMonthlyReader) "2% monthly" =
      Except.ok { logo_churn_annual := some (convertChurnRate ChurnPeriod.monthly (2 / 100)) } :=
  ⟨by decide,
   (convertChurnToAnnual_uses_compounding twoPercentMonthlyReader "2% monthly"
      ChurnPeriod.monthly (2 / 100) (by decide) rfl).1⟩

/-- C2 counterexample: a pipeline run against a classifier whose ACV answer
is schema-conforming (both declared keys present) but pairs a null primary
value with a non-null secondary value assembles and returns a CompanyRecord
with acv_2 non-null and acv null, so the invariant does not hold of every
assembled record. -/
theorem pipeline_can_emit_secondary_without_primary :
    parseCompanyFromDoc acvSplitClassifier "uuid-1" "2025-01-01T00:00:00.000Z"
        "doc-1" "ACV: strange split" = Except.ok recordWithOrphanSecondary ∧
    recordWithOrphanSecondary.acv_2 = some 800 ∧
    recordWithOrphanSecondary.acv = none :=
  ⟨rfl, rfl, rfl⟩

/-- C2 amended: assembly copies the segmentation outputs into the record
verbatim, so the assembled record satisfies the secondary-implies-primary
pairing exactly when the segmentation stage outputs do; nothing at assembly
enforces the pairing, and a record violating it is flagged invalid by
validateCompanyRecord. -/
theorem assembly_preserves_segment_pairing
    (docId uuid now : String) (y : ℤ) (sf : SimpleFields) (a : ACVResult)
    (cu : CustomerResult) (ch : ChurnResult) (b : BurnResult) (v : ValuationResult)
    (r : CompanyRecord)
    (h : assembleCompleteRecord docId uuid now (some sf) (some a) (some cu) (some ch)
        (some b) (some v) = Except.ok r) :
    (r.acv = a.acv ∧ r.acv_2 = a.acv_2 ∧ r.customer_count = cu.customer_count ∧
      r.customer_count_2 = cu.customer_count_2) ∧
    ((a.acv_2.isSome → a.acv.isSome) → r.acv_2.isSome → r.acv.isSome) ∧
    ((cu.customer_count_2.isSome → cu.customer_count.isSome) →
      r.customer_count_2.isSome → r.customer_count.isSome) ∧
    (r.acv_2.isSome → r.acv = none →
      "Invalid ACV data: acv_2 exists but primary acv is null" ∈ validateCompanyRecord y r) ∧
    (r.customer_count_2.isSome → r.customer_count = none →
      "Invalid customer count data: customer_count_2 exists but primary customer_count is null"
        ∈ validateCompanyRecord y r) := by
  injection h with h
  subst h
  refine ⟨⟨rfl, rfl, rfl, rfl⟩, fun himp h2 => himp h2, fun himp h2 => himp h2, ?_, ?_⟩
  · intro h2 hnone
    obtain ⟨x, hx⟩ := Option.isSome_iff_exists.mp h2
    simp only at hx hnone
    simp [validateCompanyRecord, hx, hnone]
  · intro h2 hnone
    obtain ⟨x, hx⟩ := Option.isSome_iff_exists.mp h2
    simp only at hx hnone
    simp [validateCompanyRecord, hx, hnone]

/-- Witness for the amended C2 at the concrete orphan-secondary stage
output. -/
theorem assembly_preserves_segment_pairing_witness :
    recordWithOrphanSecondary.acv = (ACVResult.mk none (some 800)).acv ∧
    "Invalid ACV data: acv_2 exists but primary acv is null" ∈
      validateCompanyRecord 2025 recordWithOrphanSecondary := by
  have happ := assembly_preserves_segment_pairing "doc-1" "uuid-1"
    "2025-01-01T00:00:00.000Z" 2025 simpleFieldsNone (ACVResult.mk none (some 800))
    (CustomerResult.mk none none) (ChurnResult.mk none) (BurnResult.mk none)
    (ValuationResult.mk none) recordWithOrphanSecondary rfl
  exact ⟨happ.1.1, happ.2.2.2.1 rfl rfl⟩

theorem callOpenAIStructured_error_of_responseFails {α : Type} (resp : APIResponse α)
    (h : responseFails resp) : ∃ e, callOpenAIStructured resp = Except.error e := by
  rcases h with h | h
  · exact ⟨"OpenAI API error: " ++ toString resp.code, by simp [callOpenAIStructured, h]⟩
  · by_cases hc : resp.code ≠ 200
    · exact ⟨"OpenAI API error: " ++ toString resp.code, by simp [callOpenAIStructured, hc]⟩
    · exact ⟨"Invalid API response structure", by simp [callOpenAIStructured, hc, h]⟩

theorem runStages_error_of_stage_error (c : Classifier) (docText : String)
    (h : (∃ e, parseSimpleFieldsBatch c.simpleFields docText = Except.error e) ∨
         (∃ e, analyzeACVComplexity c.acvAnalysis docText = Except.error e) ∨
         (∃ e, analyzeCustomerComplexity c.customerAnalysis docText = Except.error e) ∨
         (∃ e, convertChurnToAnnual c.churnConversion docText = Except.error e) ∨
         (∃ e, normalizeMonthlyBurn c.burnNormalization docText = Except.error e) ∨
         (∃ e, extractLastRoundValuation c.valuationExtraction docText = Except.error e)) :
    ∃ e, runStages c docText = Except.error e := by
  cases h1 : parseSimpleFieldsBatch c.simpleFields docText with
  | error e => exact ⟨e, by simp [runStages, h1]⟩
  | ok v1 =>
    cases h2 : analyzeACVComplexity c.acvAnalysis docText with
    | error e => exact ⟨e, by simp [runStages, h1, h2]⟩
    | ok v2 =>
      cases h3 : analyzeCustomerComplexity c.customerAnalysis docText with
      | error e => exact ⟨e, by simp [runStages, h1, h2, h3]⟩
      | ok v3 =>
        cases h4 : convertChurnToAnnual c.churnConversion docText with
        | error e => exact ⟨e, by simp [runStages, h1, h2, h3, h4]⟩
        | ok v4 =>
          cases h5 : normalizeMonthlyBurn c.burnNormalization docText with
          | error e => exact ⟨e, by simp [runStages, h1, h2, h3, h4, h5]⟩
          | ok v5 =>
            cases h6 : extractLastRoundValuation c.valuationExtraction docText with
            | error e => exact ⟨e, by simp [runStages, h1, h2, h3, h4, h5, h6]⟩
            | ok v6 =>
              exfalso
              rcases h with ⟨e, he⟩ | ⟨e, he⟩ | ⟨e, he⟩ | ⟨e, he⟩ | ⟨e, he⟩ | ⟨e, he⟩ <;>
                simp_all

/-- C4: when any of the six classification calls of a run fails at the
transport level (non-200 status, unparsable payload, or no payload matching
the closed schema), the whole run for that document returns an error out of
parseCompanyFromDoc and no record value is produced. -/
theorem classification_failure_aborts_run
    (t : TransportResponses) (uuid now docId docText : String)
    (hne : isBlankText docText = false)
    (hfail : responseFails (t.simpleFields docText) ∨ responseFails (t.acvAnalysis docText) ∨
      responseFails (t.customerAnalysis docText) ∨ responseFails (t.churnConversion docText) ∨
      responseFails (t.burnNormalization docText) ∨
      responseFails (t.valuationExtraction docText)) :
    ∃ e, parseCompanyFromDoc (Classifier.ofTransport t) uuid now docId docText =
      Except.error e := by
  have hstage := runStages_error_of_stage_error (Classifier.ofTransport t) docText ?_
  · obtain ⟨e, he⟩ := hstage
    exact ⟨e, by simp [parseCompanyFromDoc, he]⟩
  · rcases hfail with h | h | h | h | h | h
    · obtain ⟨e, he⟩ := callOpenAIStructured_error_of_responseFails _ h
      exact Or.inl ⟨e, by simp [parseSimpleFieldsBatch, Classifier.ofTransport, he]⟩
    · obtain ⟨e, he⟩ := callOpenAIStructured_error_of_responseFails _ h
      exact Or.inr (Or.inl ⟨e, by simp [analyzeACVComplexity, Classifier.ofTransport, hne, he]⟩)
    · obtain ⟨e, he⟩ := callOpenAIStructured_error_of_responseFails _ h
      exact Or.inr (Or.inr (Or.inl
        ⟨e, by simp [analyzeCustomerComplexity, Classifier.ofTransport, hne, he]⟩))
    · obtain ⟨e, he⟩ := callOpenAIStructured_error_of_responseFails _ h
      exact Or.inr (Or.inr (Or.inr (Or.inl
        ⟨e, by simp [convertChurnToAnnual, Classifier.ofTransport, hne, he]⟩)))
    · obtain ⟨e, he⟩ := callOpenAIStructured_error_of_responseFails _ h
      exact Or.inr (Or.inr (Or.inr (Or.inr (Or.inl
        ⟨e, by simp [normalizeMonthlyBurn, Classifier.ofTransport, hne, he]⟩))))
    · obtain ⟨e, he⟩ := callOpenAIStructured_error_of_responseFails _ h
      exact Or.inr (Or.inr (Or.inr (Or.inr (Or.inr
        ⟨e, by simp [extractLastRoundValuation, Classifier.ofTransport, hne, he]⟩))))

/-- Witness for C4 at transport responses whose simple-fields call answers
with a 500 status. -/
theorem classification_failure_aborts_run_witness :
    (isBlankText "x" = false) ∧
    ∃ e, parseCompanyFromDoc (Classifier.ofTransport failingTransport) "u" "n" "d" "x" =
      Except.error e :=
  ⟨by decide,
   classification_failure_aborts_run failingTransport "u" "n" "d" "x" (by decide)
     (Or.inl (Or.inl (by decide)))⟩

/-- C5: with the classifier fixed to a deterministic function of the
document text, two pipeline runs on identical text that both succeed agree
on every record field except id and date_created, whatever uuid and clock
reading each run drew. -/
theorem pipeline_runs_agree_except_id_and_date
    (c : Classifier) (u₁ n₁ u₂ n₂ docId docText : String) (r₁ r₂ : CompanyRecord)
    (h₁ : parseCompanyFromDoc c u₁ n₁ docId docText = Except.ok r₁)
    (h₂ : parseCompanyFromDoc c u₂ n₂ docId docText = Except.ok r₂) :
    r₁.company_name = r₂.company_name ∧ r₁.doc_url = r₂.doc_url ∧
    r₁.arr_run_rate = r₂.arr_run_rate ∧ r₁.carr = r₂.carr ∧
    r₁.revenue_2024 = r₂.revenue_2024 ∧ r₁.revenue_2023 = r₂.revenue_2023 ∧
    r₁.revenue_2022 = r₂.revenue_2022 ∧ r₁.monthly_burn = r₂.monthly_burn ∧
    r₁.cash = r₂.cash ∧ r₁.runway = r₂.runway ∧ r₁.raising = r₂.raising ∧
    r₁.raised = r₂.raised ∧ r₁.last_round_valuation = r₂.last_round_valuation ∧
    r₁.acv = r₂.acv ∧ r₁.acv_2 = r₂.acv_2 ∧
    r₁.customer_count = r₂.customer_count ∧
    r₁.customer_count_2 = r₂.customer_count_2 ∧
    r₁.logo_churn_annual = r₂.logo_churn_annual ∧ r₁.cac = r₂.cac ∧
    r₁.payback_period = r₂.payback_period ∧ r₁.ltv_to_cac = r₂.ltv_to_cac ∧
    r₁.gross_margin = r₂.gross_margin ∧
    r₁.saas_recurring_percent = r₂.saas_recurring_percent ∧ r₁.nrr = r₂.nrr ∧
    r₁.team_size = r₂.team_size ∧ r₁.year_founded = r₂.year_founded ∧
    r₁.location = r₂.location ∧ r₁.description = r₂.description ∧
    r₁.url = r₂.url ∧ r₁.competition = r₂.competition ∧
    r₁.revenue_notes = r₂.revenue_notes ∧ r₁.funding_notes = r₂.funding_notes ∧
    r₁.good = r₂.good ∧ r₁.challenges = r₂.challenges ∧
    r₁.needs_action = r₂.needs_action := by
  unfold parseCompanyFromDoc at h₁ h₂
  cases hrs : runStages c docText with
  | error e =>
    rw [hrs] at h₁
    simp at h₁
  | ok v =>
    obtain ⟨sf, a, cu, ch, b, vv⟩ := v
    rw [hrs] at h₁ h₂
    injection h₁ with h₁
    injection h₂ with h₂
    subst h₁
    subst h₂
    exact ⟨rfl, rfl, rfl, rfl, rfl, rfl, rfl, rfl, rfl, rfl, rfl, rfl, rfl, rfl, rfl,
      rfl, rfl, rfl, rfl, rfl, rfl, rfl, rfl, rfl, rfl, rfl, rfl, rfl, rfl, rfl, rfl,
      rfl, rfl, rfl, rfl⟩

/-- Witness for C5 at the all-null deterministic classifier and two distinct
identity draws. -/
theorem pipeline_runs_agree_except_id_and_date_witness :
    parseCompanyFromDoc nullClassifier "u1" "n1" "d" "x" =
      Except.ok (recordOfNullStages "u1" "n1" "d") ∧
    (recordOfNullStages "u1" "n1" "d").company_name =
      (recordOfNullStages "u2" "n2" "d").company_name :=
  ⟨rfl,
   (pipeline_runs_agree_except_id_and_date nullClassifier "u1" "n1" "u2" "n2" "d" "x"
      (recordOfNullStages "u1" "n1" "d") (recordOfNullStages "u2" "n2" "d") rfl rfl).1⟩

/-- C9 counterexample: the first save of a record into a brand-new empty
sheet does throw the const-assignment TypeError and never succeeds, but the
sheet is not left unchanged: setHeaders has already written the header row
when the throw happens. -/
theorem first_save_into_empty_sheet_writes_headers_then_throws :
    (saveCompanyRecord testRecord emptySheet).outcome =
      Except.error "TypeError: Assignment to constant variable." ∧
    (saveCompanyRecord testRecord emptySheet).sheet ≠ emptySheet ∧
    (saveCompanyRecord testRecord emptySheet).sheet.headers = companyRecordKeys :=
  ⟨rfl, by decide, rfl⟩

/-- C9 amended: for every record submitted to saveCompanyRecord when the
target sheet has no header row (getHeaders returns the empty list), the call
throws the const-assignment TypeError, so the first save into a brand-new
empty sheet never succeeds and no data row is written; the throw happens
only after setHeaders has run, so the sheet gains the record-key header row
rather than staying unchanged. -/
theorem save_on_headerless_sheet_throws_after_writing_headers
    (r : CompanyRecord) (s : Sheet) (h : s.getHeaders = []) :
    (saveCompanyRecord r s).outcome =
      Except.error "TypeError: Assignment to constant variable." ∧
    (saveCompanyRecord r s).sheet.headers = companyRecordKeys ∧
    (saveCompanyRecord r s).sheet.data = s.data := by
  refine ⟨?_, ?_, ?_⟩ <;> simp [saveCompanyRecord, h]

/-- Witness for the amended C9 at the concrete empty sheet. -/
theorem save_on_headerless_sheet_throws_after_writing_headers_witness :
    (emptySheet.getHeaders = []) ∧
    (saveCompanyRecord testRecord emptySheet).outcome =
      Except.error "TypeError: Assignment to constant variable." ∧
    (saveCompanyRecord testRecord emptySheet).sheet.data = emptySheet.data :=
  ⟨rfl,
   (save_on_headerless_sheet_throws_after_writing_headers testRecord emptySheet rfl).1,
   (save_on_headerless_sheet_throws_after_writing_headers testRecord emptySheet rfl).2.2⟩

theorem getHeaders_of_ne {s : Sheet} (h : s.headers ≠ []) : s.getHeaders = s.headers := by
  simp [Sheet.getHeaders, Sheet.getLastRow, h]

theorem mkNewRow_id_cell (r : CompanyRecord) {headers : List String} {k : ℕ}
    (hk : jsIndexOf "id" headers = some k) :
    (mkNewRow r headers).getD k (Cell.str "") = Cell.str r.id := by
  obtain ⟨hlt, hget⟩ := jsIndexOf_some_spec hk
  have h1 := getD_map_of_lt (fun h => (r.getField h).getD Cell.null) headers k
    (Cell.str "") "id" hlt
  rw [mkNewRow, h1, hget "id"]
  rfl

/-- C6: when the sheet has an id column and some data row already holds the
record id, saveCompanyRecord succeeds by overwriting in place: the row count
is unchanged (no append), the headers are untouched, and the number of rows
holding that id is preserved, so a record saved into a sheet already holding
its id exactly once (as after a first submission) leaves exactly one such
row. -/
theorem saveCompanyRecord_upserts_by_id (r : CompanyRecord) (s : Sheet) (k : ℕ)
    (hk : jsIndexOf "id" s.headers = some k)
    (hmem : Cell.str r.id ∈ s.data.map (fun row => row.getD k (Cell.str ""))) :
    (saveCompanyRecord r s).outcome = Except.ok () ∧
    (saveCompanyRecord r s).sheet.headers = s.headers ∧
    (saveCompanyRecord r s).sheet.data.length = s.data.length ∧
    countIdRows (saveCompanyRecord r s).sheet k r.id = countIdRows s k r.id := by
  have hne : s.headers ≠ [] := jsIndexOf_ne_nil hk
  have hH : s.getHeaders = s.headers := getHeaders_of_ne hne
  have hlen : ¬ (s.headers.length = 0) := fun hc => hne (List.length_eq_zero.mp hc)
  obtain ⟨j, hj⟩ := jsIndexOf_of_mem hmem
  obtain ⟨hjlt, hjget⟩ := jsIndexOf_some_spec hj
  have hjlt2 : j < s.data.length := by simpa using hjlt
  have hj2 : jsIndexOf (Cell.str r.id)
      (s.data.map (fun row => row.getD k (Cell.str "")) ++ [Cell.str ""]) = some j :=
    jsIndexOf_append_left _ hj
  have hsave : saveCompanyRecord r s =
      { sheet := { headers := s.headers,
                   data := writeRowAt s.data j (mkNewRow r s.headers) }
        outcome := Except.ok () } := by
    simp only [saveCompanyRecord, hH, hk]
    rw [if_neg hlen]
    simp only [hj2]
  have hwrite : writeRowAt s.data j (mkNewRow r s.headers) =
      s.data.set j (mkNewRow r s.headers) := by
    simp only [writeRowAt, if_pos hjlt2]
  have hrowmatch : (s.data.getD j []).getD k (Cell.str "") = Cell.str r.id := by
    have h3 := hjget (Cell.str "")
    rw [getD_map_of_lt (fun row => row.getD k (Cell.str "")) s.data j
      (Cell.str "") [] hjlt2] at h3
    exact h3
  have hnew : (mkNewRow r s.headers).getD k (Cell.str "") = Cell.str r.id :=
    mkNewRow_id_cell r hk
  have hcount := countP_set_same
    (fun row => decide (row.getD k (Cell.str "") = Cell.str r.id))
    s.data j (mkNewRow r s.headers) [] hjlt2 (by simp only [hrowmatch, hnew])
  refine ⟨by rw [hsave], by rw [hsave], ?_, ?_⟩
  · rw [hsave]
    simp only [hwrite]
    exact List.length_set s.data j (mkNewRow r s.headers)
  · rw [hsave]
    simp only [countIdRows, hwrite]
    exact hcount

/-- Witness for C6 at a sheet already holding one row for the record id. -/
theorem saveCompanyRecord_upserts_by_id_witness :
    jsIndexOf "id" sheetWithTestRecordRow.headers = some 0 ∧
    (saveCompanyRecord testRecord sheetWithTestRecordRow).outcome = Except.ok () ∧
    (saveCompanyRecord testRecord sheetWithTestRecordRow).sheet.data.length =
      sheetWithTestRecordRow.data.length ∧
    countIdRows (saveCompanyRecord testRecord sheetWithTestRecordRow).sheet 0 testRecord.id =
      countIdRows sheetWithTestRecordRow 0 testRecord.id := by
  have happ := saveCompanyRecord_upserts_by_id testRecord sheetWithTestRecordRow 0
    (by decide) (by decide)
  exact ⟨by decide, happ.1, happ.2.2.1, happ.2.2.2⟩

theorem processDoc_bumpError_comm (parse : String → Except String CompanyRecord)
    (st : BatchState) (d : String) :
    processDoc parse (bumpError st) d = bumpError (processDoc parse st d) := by
  unfold processDoc bumpError
  cases parse d with
  | error e => rfl
  | ok r =>
    cases hb : jsTruthyName r.company_name with
    | false => simp [hb]
    | true =>
      cases ho : (saveCompanyRecord r st.sheet).outcome with
      | ok u => simp [hb, ho]
      | error e => simp [hb, ho]

theorem foldl_processDoc_bumpError (parse : String → Except String CompanyRecord) :
    ∀ (l : List String) (st : BatchState),
      l.foldl (processDoc parse) (bumpError st) = bumpError (l.foldl (processDoc parse) st)
  | [], _ => rfl
  | d :: l, st => by
    rw [List.foldl_cons, List.foldl_cons, processDoc_bumpError_comm,
      foldl_processDoc_bumpError parse l]

/-- C8: one document never aborts the batch.  A document whose parse throws
contributes exactly one counted error and nothing else: the whole run equals
the run without that document plus one error, so every other document is
processed identically.  A document whose save throws likewise contributes
one counted error (keeping whatever sheet mutation the failed save made) and
the driver continues with the remaining documents. -/
theorem batch_driver_isolates_failures
    (parse : String → Except String CompanyRecord) (l₁ l₂ l₃ : List String)
    (bad d : String) (st st₂ : BatchState) (e e₂ : String) (r : CompanyRecord)
    (hbad : parse bad = Except.error e)
    (hd : parse d = Except.ok r)
    (hname : jsTruthyName r.company_name = true)
    (hsave : (saveCompanyRecord r st₂.sheet).outcome = Except.error e₂) :
    processAllCompaniesInMasterFolder parse (l₁ ++ bad :: l₂) st =
      bumpError (processAllCompaniesInMasterFolder parse (l₁ ++ l₂) st) ∧
    processAllCompaniesInMasterFolder parse (d :: l₃) st₂ =
      processAllCompaniesInMasterFolder parse l₃
        { st₂ with sheet := (saveCompanyRecord r st₂.sheet).sheet,
                   errorCount := st₂.errorCount + 1 } := by
  constructor
  · unfold processAllCompaniesInMasterFolder
    rw [List.foldl_append, List.foldl_append, List.foldl_cons]
    have hstep : processDoc parse (l₁.foldl (processDoc parse) st) bad =
        bumpError (l₁.foldl (processDoc parse) st) := by
      simp [processDoc, bumpError, hbad]
    rw [hstep, foldl_processDoc_bumpError]
  · unfold processAllCompaniesInMasterFolder
    rw [List.foldl_cons]
    congr 1
    simp [processDoc, hd, hname, hsave]

/-- Witness for C8 at the concrete parse function whose document named bad
fails, embedded between two successfully processed documents. -/
theorem batch_driver_isolates_failures_witness :
    processAllCompaniesInMasterFolder testParse (["doc-a"] ++ "bad" :: ["doc-c"]) testBatchState =
      bumpError (processAllCompaniesInMasterFolder testParse (["doc-a"] ++ ["doc-c"])
        testBatchState) :=
  (batch_driver_isolates_failures testParse ["doc-a"] ["doc-c"] [] "bad" "doc-a"
    testBatchState { sheet := emptySheet, processedCount := 0, errorCount := 0 }
    "OpenAI API error: 500" "TypeError: Assignment to constant variable." testRecord
    rfl rfl (by decide) rfl).1
